import Mathlib

/-!
Verification of the payment-proof confirmation flow of the api-casinos
webhook relay.  The definitions below are a shallow embedding of the
TypeScript sources: remote HTTP interactions (Kommo CRM reads/writes, the
vision classifier provider, Google contacts) are represented by explicit
oracle records, and every remote mutation the handlers issue is recorded
as an `Effect` so that frame properties ("no state write") can be stated
exactly.  JavaScript truthiness (`0`, `""`, `null`/`undefined` are falsy)
is modelled by the `natTruthy`/`strTruthy` helpers and the `jsOr*`
combinators.
-/

namespace ApiCasinos

/-- JS truthiness of an optional number: `0`, `null` and `undefined` are falsy. -/
def natTruthy : Option Nat → Bool
  | some n => n != 0
  | none => false

/-- JS truthiness of an optional string: `""`, `null` and `undefined` are falsy. -/
def strTruthy : Option String → Bool
  | some s => s != ""
  | none => false

/-- JS `a || b` on optional numbers. -/
def jsOrNat (a b : Option Nat) : Option Nat :=
  if natTruthy a then a else b

/-- JS `a || b` on optional strings. -/
def jsOrStr (a b : Option String) : Option String :=
  if strTruthy a then a else b

/-- JS `a || d` where `d` is a number default (used for `max_intentos_comprobante || 3`). -/
def jsOrNatD (a : Option Nat) (d : Nat) : Nat :=
  match a with
  | some n => if n = 0 then d else n
  | none => d

/-- `pat` occurs as a contiguous sublist. -/
def subList (pat : List Char) : List Char → Bool
  | [] => pat.isEmpty
  | c :: rest => List.isPrefixOf pat (c :: rest) || subList pat rest

/-- JS substring test `s.includes(pat)` (over the character lists, so that
it evaluates inside the kernel). -/
def containsSub (s pat : String) : Bool :=
  subList pat.data s.data

/-! ## Vision validator (`src/lib/vision-validator.ts`)

The file holds two generations of the module: the current OpenAI-based one
(`validatePaymentProof(imageUrl, fileName)`, with PDF text extraction and a
3-attempt retry loop) and the older Gemini-based one
(`validatePaymentProof(imageUrl, geminiApiKey)`, single attempt).  Both are
embedded.  The provider interaction of each attempt is abstracted as an
`ApiOutcome`; the pair returned by the embedded functions is
`(result, number of classification-provider calls made)`. -/

/-- `ValidationResult` of `vision-validator.ts` (the optional `monto` field
belongs to the OpenAI generation). -/
structure ValidationResult where
  isPaymentProof : Bool
  confidence : String
  reason : String
  monto : Option Int
deriving Repr, DecidableEq

/-- The fail-open results all share this shape. -/
def failOpen (reason : String) : ValidationResult :=
  ⟨true, "low", reason, none⟩

/-- Outcome of one classification-provider HTTP attempt. -/
inductive ApiOutcome where
  | httpError
  | emptyResponse
  | noJson
  | parsed (r : ValidationResult)
  | exn
deriving Repr, DecidableEq

/-- `MAX_RETRIES` of `vision-validator.ts`. -/
def MAX_RETRIES : Nat := 3

/-- `isPdfFile(fileName, mimeType?)`:
`fileName.toLowerCase().endsWith('.pdf') || (mimeType?.includes('application/pdf') ?? false)`
(over character lists, so that it evaluates inside the kernel). -/
def isPdfFile (fileName : String) (mimeType : Option String) : Bool :=
  List.isSuffixOf ".pdf".data (fileName.data.map Char.toLower) ||
    (match mimeType with
     | some m => containsSub m "application/pdf"
     | none => false)

/-- The shared retry loop of `validatePdfText` and of the image branch of the
OpenAI `validatePaymentProof` (`for attempt = 1..MAX_RETRIES`): the outcome of
attempt `i` (0-based here) is `attempts i`.  Retries happen on HTTP errors,
empty responses and thrown errors; an unparsable body and a parsed body return
at once.  Returns the result and the number of provider calls made. -/
def apiCallLoop (attempts : Nat → ApiOutcome) : Nat → Nat → ValidationResult × Nat
  | attempt, 0 => (failOpen "Unknown error", attempt)
  | attempt, fuel + 1 =>
    let calls := attempt + 1
    match attempts attempt with
    | ApiOutcome.parsed r => (r, calls)
    | ApiOutcome.noJson => (failOpen "Could not parse response", calls)
    | ApiOutcome.httpError =>
      if attempt + 1 < MAX_RETRIES then apiCallLoop attempts (attempt + 1) fuel
      else (failOpen "API error after all retries", calls)
    | ApiOutcome.emptyResponse =>
      if attempt + 1 < MAX_RETRIES then apiCallLoop attempts (attempt + 1) fuel
      else (failOpen "Empty API response after all retries", calls)
    | ApiOutcome.exn =>
      if attempt + 1 < MAX_RETRIES then apiCallLoop attempts (attempt + 1) fuel
      else (failOpen "Validation error after all retries", calls)

/-- Oracle for the OpenAI validator: the PDF download/extraction result
(`pdfUrlToText`, `none` on download or parse failure), the image download
result (`imageUrlToBase64` success), and the provider outcomes per attempt. -/
structure VisionEnv where
  pdfText : Option String
  imageOk : Bool
  pdfAttempts : Nat → ApiOutcome
  imageAttempts : Nat → ApiOutcome

/-- `validatePdfText(pdfText, apiKey)`: the retry loop over the chat API. -/
def validatePdfText (env : VisionEnv) : ValidationResult × Nat :=
  apiCallLoop env.pdfAttempts 0 MAX_RETRIES

/-- OpenAI-generation `validatePaymentProof(imageUrl, fileName)`; the API key
read from `process.env.OPENAI_API_KEY` is passed explicitly. -/
def validatePaymentProof (apiKey : Option String) (imageUrl fileName : String)
    (env : VisionEnv) : ValidationResult × Nat :=
  if !strTruthy apiKey then
    (failOpen "Validation skipped - no API key configured", 0)
  else if isPdfFile fileName none then
    match env.pdfText with
    | none => (⟨false, "low", "No se pudo extraer texto del PDF", none⟩, 0)
    | some t =>
      if t.trim.length < 10 then
        (⟨false, "low", "No se pudo extraer texto del PDF", none⟩, 0)
      else validatePdfText env
  else if env.imageOk then
    apiCallLoop env.imageAttempts 0 MAX_RETRIES
  else
    (⟨false, "low", "Failed to download image", none⟩, 0)

/-- Oracle for the Gemini validator: image download success and the single
provider attempt. -/
structure GeminiEnv where
  imageOk : Bool
  api : ApiOutcome
deriving Repr, DecidableEq

/-- Gemini-generation `validatePaymentProof(imageUrl, geminiApiKey)`
(single attempt, no retry loop). -/
def validatePaymentProofGemini (geminiApiKey : Option String) (env : GeminiEnv) :
    ValidationResult × Nat :=
  if !strTruthy geminiApiKey then
    (failOpen "Validation skipped - no API key configured", 0)
  else if !env.imageOk then
    (⟨false, "low", "Failed to download image", none⟩, 0)
  else
    match env.api with
    | ApiOutcome.httpError => (failOpen "API error, validation skipped", 1)
    | ApiOutcome.emptyResponse => (failOpen "Empty API response", 1)
    | ApiOutcome.noJson => (failOpen "Could not parse response", 1)
    | ApiOutcome.parsed r => (r, 1)
    | ApiOutcome.exn => (failOpen "Validation error", 1)

/-! ## Tenant configuration (`src/lib/config.ts`)

Only the `kommo` fields the message handlers consult are embedded.
`credsOk` stands for "`access_token` and `subdomain` are both configured
(truthy)", the guard every remote helper checks first. -/

structure KommoConfig where
  credsOk : Bool
  esperando_comprobante_status_id : Option Nat
  comprobante_recibido_status_id : Option Nat
  comprobante_no_recibido_status_id : Option Nat
  no_respondio_status_id : Option Nat
  intentos_comprobante_field_id : Option Nat
  max_intentos_comprobante : Option Nat
  fbclid_field_id : Option Nat
  username_field_id : Option Nat
  creacion_envio_user_status_id : Option Nat
deriving Repr, DecidableEq

/-- `ClientConfig`: the kommo block plus whether a google block resolved. -/
structure ClientConfig where
  kommo : KommoConfig
  googleConfigured : Bool
deriving Repr, DecidableEq

/-! ## Remote lead record and effects

The remote Kommo lead is the sole externally visible state the handlers
mutate.  `intentosField` is the value stored in the `intentos_comprobante`
custom field (`none` when the field is absent on the record).  Every remote
mutation request a handler issues is recorded as an `Effect`. -/

structure Lead where
  status_id : Nat
  pipeline_id : Nat
  intentosField : Option Nat
deriving Repr, DecidableEq

inductive Effect where
  /-- combined `PATCH` of `updateLeadStatus` (status, optionally the intentos field) -/
  | patchLead (leadId status_id : Nat) (intentos : Option Nat)
  /-- `moveLeadToStatus`: `PATCH` of the status only -/
  | moveStatus (leadId status_id : Nat)
  /-- `updateIntentosComprobante`: `PATCH` of the intentos custom field only -/
  | setIntentos (leadId intentos : Nat)
  /-- `saveFbclidToLead`: `PATCH` of the fbclid custom field -/
  | setFbclid (leadId : Nat) (fbclid : String)
  /-- `POST /leads/notes` -/
  | postNote (leadId : Nat) (text : String)
  /-- an invocation of the classification gateway `validatePaymentProof` -/
  | classify (url : String)
  /-- `createGoogleContact` -/
  | googleContact (name phone : String)
deriving Repr, DecidableEq

/-- Writes that touch the lead's pipeline stage or its retry counter — the
"state writes" of the spec's frame properties. -/
def stageOrRetryWrite : Effect → Bool
  | Effect.patchLead _ _ _ => true
  | Effect.moveStatus _ _ => true
  | Effect.setIntentos _ _ => true
  | _ => false

/-- How an applied effect transforms the remote lead record (used to thread
state through a sequence of webhook events; only run in worlds where the
`PATCH` calls succeed). -/
def applyEffect (l : Lead) : Effect → Lead
  | Effect.patchLead _ sid i =>
    { l with status_id := sid,
             intentosField := match i with | some v => some v | none => l.intentosField }
  | Effect.moveStatus _ sid => { l with status_id := sid }
  | Effect.setIntentos _ v => { l with intentosField := some v }
  | _ => l

def applyEffects (l : Lead) (effs : List Effect) : Lead :=
  effs.foldl applyEffect l

/-- HTTP JSON response shape `{success, message}` plus the HTTP status code
(200 when `NextResponse.json` is called without a status option). -/
structure Resp where
  status : Nat
  success : Bool
  message : String
deriving Repr, DecidableEq

/-! ## `extractFbclidFromMessage` (`src/lib/meta-capi.ts`)

`messageText.match(/\[REF:([^\]]+)\]/)`: scan for `[REF:`, capture a
non-empty run of characters other than `]`, require the closing `]`. -/

def refCapture : List Char → Option (List Char)
  | [] => none
  | c :: rest =>
    if c = '[' then
      match rest with
      | 'R' :: 'E' :: 'F' :: ':' :: body =>
        let captured := body.takeWhile (fun ch => ch ≠ ']')
        if captured ≠ [] && (body.drop captured.length).head? = some ']' then
          some captured
        else refCapture rest
      | _ => refCapture rest
    else refCapture rest

def extractFbclidFromMessage (messageText : String) : Option String :=
  (refCapture messageText.data).map String.mk

/-! ## Webhook payload shapes and extraction

The per-client message handler (`kommo-message-received`) recognises the
Chats-API shape (`payload.message.message.type` present) and the standard
shape (`payload.message ?? payload` with `entity_id`, `message_type`,
`attachments`).  Each constructor stands for a payload on which the
corresponding branch of the `if`/`else` dispatch fires. -/

structure StdAttachment where
  type : Option String
  file_name : Option String
  name : Option String
  link : Option String
  url : Option String
deriving Repr, DecidableEq

inductive Payload where
  /-- Chats-API shape: `message.sender.id`, `message.conversation.id`,
  `message.talk_id`, inner `message.{type, file_name, media, text}`. -/
  | chats (senderId conversationId talkId : Option Nat)
      (msgType : String) (file_name media text : Option String)
  /-- standard shape: `entity_id`, `message_type`, `attachments`, `text`. -/
  | standard (entity_id : Option Nat) (message_type : Option String)
      (attachments : List StdAttachment) (text : Option String)
deriving Repr, DecidableEq

/-- media-type mapping of the Chats-API branch. -/
def mediaTypes : String → Option String
  | "picture" => some "image"
  | "video" => some "file"
  | "file" => some "file"
  | "voice" => some "file"
  | "audio" => some "file"
  | "sticker" => some "image"
  | _ => none

/-- The canonical event record the handler builds before processing. -/
structure Extracted where
  leadId : Option Nat
  isIncoming : Bool
  attachmentType : Option String
  fileName : String
  fileUrl : Option String
  messageText : Option String
deriving Repr, DecidableEq

/-- The extraction block of the message handlers (both shapes). -/
def extractMessage : Payload → Extracted
  | Payload.chats senderId conversationId talkId msgType file_name media text =>
    { leadId := jsOrNat conversationId talkId
      isIncoming := natTruthy senderId
      attachmentType := mediaTypes msgType
      fileName := (jsOrStr file_name (some "unknown")).getD "unknown"
      fileUrl := media
      messageText := text }
  | Payload.standard entity_id message_type attachments text =>
    match attachments with
    | [] =>
      { leadId := entity_id, isIncoming := message_type == some "in"
        attachmentType := none, fileName := "unknown", fileUrl := none
        messageText := text }
    | a :: _ =>
      { leadId := entity_id, isIncoming := message_type == some "in"
        attachmentType := a.type
        fileName := (jsOrStr a.file_name (jsOrStr a.name (some "unknown"))).getD "unknown"
        fileUrl := jsOrStr a.link a.url
        messageText := text }

/-! ## Per-client message handler (`src/unnamed/part_000`, second document)

This is the `kommo-message-received` route generation with the retry
counter: `getLeadData`, `updateLeadStatus`, `addNoteToLead`, `handleNoProof`
and the `POST` body.  `World` is the oracle for its remote calls. -/

structure World where
  lead : Lead
  getLeadOk : Bool
  patchOk : Bool
  noteOk : Bool
  geminiApiKey : Option String
  gemini : GeminiEnv
deriving Repr, DecidableEq

/-- `getLeadData(leadId, config)`: `none` on missing credentials or a failed
`GET`; otherwise the `intentos_comprobante` value (0 when the field id is not
configured or the field is absent) and the current `status_id`. -/
def getLeadData (c : KommoConfig) (lead : Lead) (fetchOk : Bool) : Option (Nat × Nat) :=
  if !c.credsOk then none
  else if !fetchOk then none
  else
    let intentos :=
      if natTruthy c.intentos_comprobante_field_id then lead.intentosField.getD 0 else 0
    some (intentos, lead.status_id)

/-- `updateLeadStatus(leadId, statusId, intentos, config)`: one `PATCH` setting
the status and, when `intentos` is non-null and the field id is configured,
the intentos custom field.  Returns `response.ok` and the issued request. -/
def updateLeadStatus (c : KommoConfig) (w : World) (leadId status_id : Nat)
    (intentos : Option Nat) : Bool × List Effect :=
  if !c.credsOk then (false, [])
  else
    let fieldWrite :=
      match intentos with
      | some i => if natTruthy c.intentos_comprobante_field_id then some i else none
      | none => none
    (w.patchOk, [Effect.patchLead leadId status_id fieldWrite])

/-- The note text `Comprobante recibido: ${fileName}${fileUrl ? ...}`. -/
def noteText (fileName : String) (fileUrl : Option String) : String :=
  "Comprobante recibido: " ++ fileName ++
    (if strTruthy fileUrl then "\nURL: " ++ fileUrl.getD "" else "")

/-- `addNoteToLead(leadId, fileName, fileUrl, config)`. -/
def addNoteToLead (c : KommoConfig) (w : World) (leadId : Nat) (fileName : String)
    (fileUrl : Option String) : Bool × List Effect :=
  if !c.credsOk then (false, [])
  else (w.noteOk, [Effect.postNote leadId (noteText fileName fileUrl)])

structure NoProofResult where
  statusChanged : Bool
  stage : String
  intentos : Nat
deriving Repr, DecidableEq

/-- `handleNoProof(leadId, config, clientId)`: read the current counter,
increment it, escalate to `NO RESPONDIO` when the new value reaches
`max_intentos_comprobante || 3` (and that stage is configured), else move to
`COMPROBANTE NO RECIBIDO`; write status and counter in one `PATCH`.  Note:
the lead's current stage is never consulted. -/
def handleNoProof (c : KommoConfig) (w : World) (leadId : Nat) :
    NoProofResult × List Effect :=
  let leadData := getLeadData c w.lead w.getLeadOk
  let currentIntentos := match leadData with | some p => p.1 | none => 0
  let newIntentos := currentIntentos + 1
  let maxIntentos := jsOrNatD c.max_intentos_comprobante 3
  let escalated := decide (newIntentos ≥ maxIntentos) && natTruthy c.no_respondio_status_id
  let status_id :=
    if escalated then c.no_respondio_status_id else c.comprobante_no_recibido_status_id
  let stage := if escalated then "NO RESPONDIO" else "COMPROBANTE NO RECIBIDO"
  if !natTruthy status_id then
    (⟨false, "unknown", newIntentos⟩, [])
  else
    let r := updateLeadStatus c w leadId (status_id.getD 0) (some newIntentos)
    (⟨r.1, stage, newIntentos⟩, r.2)

/-- The valid-proof tail of the handler: move to `COMPROBANTE RECIBIDO`,
reset the counter to 0, and on a successful status write append the audit
note.  (`pre` carries the effects already issued, i.e. the classifier call.) -/
def validProofTail (c : KommoConfig) (w : World) (leadId : Nat) (fileName : String)
    (fileUrl : Option String) (pre : List Effect) : Resp × List Effect :=
  if !natTruthy c.comprobante_recibido_status_id then
    (⟨200, false, "comprobante_recibido_status_id not configured"⟩, pre)
  else
    let r := updateLeadStatus c w leadId (c.comprobante_recibido_status_id.getD 0) (some 0)
    let noteEffs := if r.1 then (addNoteToLead c w leadId fileName fileUrl).2 else []
    (⟨200, true, "Proof received - moved to COMPROBANTE RECIBIDO"⟩, pre ++ r.2 ++ noteEffs)

/-- The `POST` body of the per-client `kommo-message-received` route
(counter generation): extraction, the incoming/lead-id guards, the
no-attachment branch, the `validTypes` filter, image classification via the
Gemini validator, then the reject or valid-proof tail. -/
def messageReceivedPOST (c : KommoConfig) (w : World) (p : Payload) :
    Resp × List Effect :=
  let e := extractMessage p
  if !e.isIncoming then
    (⟨200, true, "Outgoing message ignored"⟩, [])
  else if !natTruthy e.leadId then
    (⟨400, false, "Could not extract lead/conversation ID"⟩, [])
  else
    let leadId := e.leadId.getD 0
    if !strTruthy e.attachmentType || !strTruthy e.fileUrl then
      let r := handleNoProof c w leadId
      (⟨200, true, "No media - moved to " ++ r.1.stage⟩, r.2)
    else if !(e.attachmentType == some "image" || e.attachmentType == some "file") then
      (⟨200, true, "Attachment type not valid for proof"⟩, [])
    else if e.attachmentType == some "image" && strTruthy e.fileUrl then
      let aiValidation := (validatePaymentProofGemini w.geminiApiKey w.gemini).1
      let classifyEff := [Effect.classify (e.fileUrl.getD "")]
      if !aiValidation.isPaymentProof then
        let r := handleNoProof c w leadId
        (⟨200, true, "Image not a payment proof - moved to " ++ r.1.stage⟩,
         classifyEff ++ r.2)
      else
        validProofTail c w leadId e.fileName e.fileUrl classifyEff
    else
      validProofTail c w leadId e.fileName e.fileUrl []

/-! ## Multi-pipeline tenant resolution

`findClientByPipelineId` is imported from `@/lib/config` by the zeus routes
but its definition is not among the sources (only the `config.ts` generation
without it is).  Modelled from the spec: the resolver "look[s] up the
tenant-config entry whose declared pipeline id matches; if none matches, the
event is dropped".  The configuration table is passed explicitly as a list of
`(declared pipeline id, clientId, config)` entries. -/

def findClientByPipelineId (table : List (Nat × String × ClientConfig))
    (pipelineId : Nat) : Option (String × ClientConfig) :=
  (table.find? (fun e => e.1 == pipelineId)).map (fun e => e.2)

/-! ## Zeus multi-pipeline message handler
(`src/app/api/[clientId]/create-player-from-kommo/route.ts`, second document:
`POST /api/zeus/kommo-message-received`)

This generation adds two payload shapes (bracket-indexed global message
webhooks and salesbot triggers), pipeline auto-detection, tracking-id
capture, and — alone among the message handlers — the stage gate: events are
only processed when the lead sits in `ESPERANDO COMPROBANTE` or
`COMPROBANTE NO RECIBIDO`. -/

/-- `getLastLeadMessage`'s result: the first usable attachment found in the
events feed, then the notes feed. -/
structure LastMessage where
  fileUrl : String
  fileName : String
  messageType : String
deriving Repr, DecidableEq

/-- Oracle for the zeus message handler's remote calls. -/
structure ZWorld where
  lastMessage : Option LastMessage
  pipelineFetchOk : Bool
  pipeline_id : Nat
  lead : Lead
  getLeadOk : Bool
  patchOk : Bool
  openaiApiKey : Option String
  vision : VisionEnv

/-- `getLastLeadMessage(leadId, config)` (remote feeds abstracted). -/
def getLastLeadMessage (c : KommoConfig) (w : ZWorld) : Option LastMessage :=
  if !c.credsOk then none else w.lastMessage

/-- `saveFbclidToLead(leadId, fbclid, config)`. -/
def saveFbclidToLead (c : KommoConfig) (w : ZWorld) (leadId : Nat) (fbclid : String) :
    Bool × List Effect :=
  if !c.credsOk || !natTruthy c.fbclid_field_id then (false, [])
  else (w.patchOk, [Effect.setFbclid leadId fbclid])

/-- `updateIntentosComprobante(leadId, intentos, config)` (void; returns the
issued request). -/
def updateIntentosComprobante (c : KommoConfig) (leadId intentos : Nat) : List Effect :=
  if !c.credsOk || !natTruthy c.intentos_comprobante_field_id then []
  else [Effect.setIntentos leadId intentos]

/-- `moveLeadToStatus(leadId, statusId, config)`. -/
def moveLeadToStatus (c : KommoConfig) (patchOk : Bool) (leadId status_id : Nat) :
    Bool × List Effect :=
  if !c.credsOk then (false, [])
  else (patchOk, [Effect.moveStatus leadId status_id])

/-- Payloads of the zeus message handler; constructors in the order the
`if`/`else` key-pattern dispatch tries them. -/
inductive ZPayload where
  /-- bracket-indexed `message[add][N][...]` form fields -/
  | globalMsg (entity_id : Option Nat) (msgType text : Option String)
      (media file attachmentLink : Option String)
      (file_name attachmentFileName : Option String)
      (attachmentTypeValue messageMediaType : Option String)
  /-- bracket-indexed `leads[add|update][N][id]` salesbot trigger -/
  | salesbot (leadId : Option Nat)
  /-- Chats-API shape -/
  | chats (senderId conversationId talkId : Option Nat)
      (msgType : String) (file_name media text : Option String)
  /-- standard shape -/
  | standard (entity_id : Option Nat) (message_type : Option String)
      (attachments : List StdAttachment) (text : Option String)

/-- The extraction block of the zeus message handler. -/
def zExtract (base : KommoConfig) (w : ZWorld) : ZPayload → Extracted
  | ZPayload.globalMsg entity_id msgType text media file attachmentLink
      file_name attachmentFileName _attachmentTypeValue _messageMediaType =>
    let fileUrl := jsOrStr media (jsOrStr file attachmentLink)
    if strTruthy fileUrl then
      let typeValue := jsOrStr _attachmentTypeValue _messageMediaType
      { leadId := entity_id
        isIncoming := msgType == some "incoming"
        attachmentType :=
          some (if typeValue == some "picture" || typeValue == some "image"
                then "image" else "file")
        fileName := (jsOrStr file_name (jsOrStr attachmentFileName (some "attachment"))).getD "attachment"
        fileUrl := fileUrl
        messageText := jsOrStr text none }
    else
      { leadId := entity_id, isIncoming := msgType == some "incoming"
        attachmentType := none, fileName := "unknown", fileUrl := none
        messageText := jsOrStr text none }
  | ZPayload.salesbot leadId =>
    match getLastLeadMessage base w with
    | some lm =>
      { leadId := leadId, isIncoming := true
        attachmentType := some (if lm.messageType == "picture" then "image" else "file")
        fileName := lm.fileName, fileUrl := some lm.fileUrl, messageText := none }
    | none =>
      { leadId := leadId, isIncoming := true
        attachmentType := none, fileName := "unknown", fileUrl := none
        messageText := none }
  | ZPayload.chats senderId conversationId talkId msgType file_name media text =>
    { leadId := jsOrNat conversationId talkId
      isIncoming := natTruthy senderId
      attachmentType := mediaTypes msgType
      fileName := (jsOrStr file_name (some "unknown")).getD "unknown"
      fileUrl := media
      messageText := jsOrStr text none }
  | ZPayload.standard entity_id message_type attachments text =>
    let base := extractMessage (Payload.standard entity_id message_type attachments text)
    { base with messageText := jsOrStr text none }

/-- The tracking-id capture of the zeus message handler: when the message
text holds a `[REF:xxx]` marker, save it to the fbclid custom field. -/
def fbclidEffects (c : KommoConfig) (w : ZWorld) (leadId : Nat)
    (messageText : Option String) : List Effect :=
  match messageText with
  | some t =>
    match extractFbclidFromMessage t with
    | some fb => (saveFbclidToLead c w leadId fb).2
    | none => []
  | none => []

/-- `[esperando_comprobante_status_id, comprobante_no_recibido_status_id].filter(Boolean)`:
the stages in which the zeus message handler processes events. -/
def validStatuses (c : KommoConfig) : List Nat :=
  ([c.esperando_comprobante_status_id,
    c.comprobante_no_recibido_status_id].filterMap id).filter (fun s => s != 0)

/-- The `POST` body of `POST /api/zeus/kommo-message-received`. -/
def zeusMessagePOST (table : List (Nat × String × ClientConfig))
    (base : KommoConfig) (w : ZWorld) (p : ZPayload) : Resp × List Effect :=
  let e := zExtract base w p
  if !e.isIncoming then
    (⟨200, true, "Outgoing message ignored"⟩, [])
  else if !natTruthy e.leadId then
    (⟨400, false, "Could not extract lead/conversation ID"⟩, [])
  else
    let leadId := e.leadId.getD 0
    if !w.pipelineFetchOk then
      (⟨500, false, "Could not fetch lead for pipeline detection"⟩, [])
    else
      match findClientByPipelineId table w.pipeline_id with
      | none =>
        (⟨200, true, "Pipeline " ++ toString w.pipeline_id ++ " not configured - message ignored"⟩, [])
      | some cc =>
        let c := cc.2.kommo
        let fbclidEffs := fbclidEffects c w leadId e.messageText
        match getLeadData c w.lead w.getLeadOk with
        | none => (⟨200, true, "Could not fetch lead data"⟩, fbclidEffs)
        | some li =>
          if !(validStatuses c).contains li.2 then
            (⟨200, true, "Lead not in waiting status"⟩, fbclidEffs)
          else if !strTruthy e.attachmentType && !strTruthy e.fileUrl then
            let newIntentos := li.1 + 1
            let intentosEffs := updateIntentosComprobante c leadId newIntentos
            let maxIntentos := jsOrNatD c.max_intentos_comprobante 3
            if newIntentos ≥ maxIntentos then
              let moveEffs :=
                if natTruthy c.no_respondio_status_id then
                  (moveLeadToStatus c w.patchOk leadId (c.no_respondio_status_id.getD 0)).2
                else []
              (⟨200, true, "Max attempts reached (no attachment) - moved to NO_RESPONDIO"⟩,
               fbclidEffs ++ intentosEffs ++ moveEffs)
            else
              let moveEffs :=
                if natTruthy c.comprobante_no_recibido_status_id then
                  (moveLeadToStatus c w.patchOk leadId (c.comprobante_no_recibido_status_id.getD 0)).2
                else []
              (⟨200, true, "No attachment - retry requested"⟩,
               fbclidEffs ++ intentosEffs ++ moveEffs)
          else
            let validationResult :=
              (validatePaymentProof w.openaiApiKey (e.fileUrl.getD "") e.fileName w.vision).1
            let classifyEff := [Effect.classify (e.fileUrl.getD "")]
            let newIntentos := li.1 + 1
            let intentosEffs := updateIntentosComprobante c leadId newIntentos
            if validationResult.isPaymentProof then
              let moveEffs :=
                if natTruthy c.comprobante_recibido_status_id then
                  (moveLeadToStatus c w.patchOk leadId (c.comprobante_recibido_status_id.getD 0)).2
                else []
              (⟨200, true, "Valid payment proof received"⟩,
               fbclidEffs ++ classifyEff ++ intentosEffs ++ moveEffs)
            else
              let maxIntentos := jsOrNatD c.max_intentos_comprobante 3
              if newIntentos ≥ maxIntentos then
                let moveEffs :=
                  if natTruthy c.no_respondio_status_id then
                    (moveLeadToStatus c w.patchOk leadId (c.no_respondio_status_id.getD 0)).2
                  else []
                (⟨200, true, "Max attempts reached - moved to NO_RESPONDIO"⟩,
                 fbclidEffs ++ classifyEff ++ intentosEffs ++ moveEffs)
              else
                let moveEffs :=
                  if natTruthy c.comprobante_no_recibido_status_id then
                    (moveLeadToStatus c w.patchOk leadId (c.comprobante_no_recibido_status_id.getD 0)).2
                  else []
                (⟨200, true, "Invalid payment proof - retry requested"⟩,
                 fbclidEffs ++ classifyEff ++ intentosEffs ++ moveEffs)

/-! ## Zeus create-player route (`src/app/api/zeus/create-player-from-kommo/route.ts`)

Parses the bracket-indexed payload for a lead id, fetches the lead to learn
its pipeline, resolves the tenant config by pipeline id, then reads the
username field, saves the contact to Google and moves the lead onward. -/

/-- Leading-digits `parseInt(value)` (NaN becomes `none`). -/
def parseIntNat (s : String) : Option Nat :=
  let ds := s.data.takeWhile Char.isDigit
  if ds.isEmpty then none
  else some (ds.foldl (fun acc ch => acc * 10 + (ch.toNat - 48)) 0)

/-- The payload scan
`key.includes('leads[') && key.includes('[id]')` (first match, `break`). -/
def zcFindLeadId (payload : List (String × String)) : Option Nat :=
  match payload.find? (fun kv => containsSub kv.1 "leads[" && containsSub kv.1 "[id]") with
  | some kv => parseIntNat kv.2
  | none => none

/-- Oracle for the zeus create-player route's remote calls. -/
structure ZCWorld where
  fetchLeadOk : Bool
  pipeline_id : Nat
  usernameFieldValue : Option String
  contactId : Option Nat
  contactOk : Bool
  phone : Option String
  email : Option String
  googleOk : Bool
  moveOk : Bool
  noteOk : Bool
deriving Repr, DecidableEq

/-- `validateClientConfig(config)`: valid iff token and subdomain resolve. -/
def validateClientConfig (c : KommoConfig) : Bool := c.credsOk

/-- The warning note posted when the username field is missing. -/
def zcUsernameMissingNote : String :=
  "Error: No se encontro el campo Username en el lead."

/-- The `POST` body of `POST /api/zeus/create-player-from-kommo`. -/
def zeusCreatePlayerPOST (table : List (Nat × String × ClientConfig))
    (w : ZCWorld) (payload : List (String × String)) : Resp × List Effect :=
  if !natTruthy (zcFindLeadId payload) then
    (⟨400, false, "Lead ID not found in payload"⟩, [])
  else
    let leadId := (zcFindLeadId payload).getD 0
    if !w.fetchLeadOk then
      (⟨500, false, "Could not fetch lead for pipeline detection"⟩, [])
    else
      match findClientByPipelineId table w.pipeline_id with
      | none =>
        (⟨400, false, "Pipeline " ++ toString w.pipeline_id ++ " not configured"⟩, [])
      | some cc =>
        let c := cc.2.kommo
        if !validateClientConfig c then
          (⟨500, false, "Invalid configuration"⟩, [])
        else
          let username :=
            if natTruthy c.username_field_id then jsOrStr w.usernameFieldValue none
            else none
          match username with
          | none =>
            (⟨400, false, "Username not found in lead"⟩,
             if c.credsOk then [Effect.postNote leadId zcUsernameMissingNote] else [])
          | some un =>
            let phone :=
              match w.contactId with
              | some _ => if w.contactOk then jsOrStr w.phone none else none
              | none => none
            let googleEffs :=
              if cc.2.googleConfigured && strTruthy phone then
                [Effect.googleContact un (phone.getD "")]
              else []
            let moveEffs :=
              if natTruthy c.creacion_envio_user_status_id then
                (moveLeadToStatus c w.moveOk leadId (c.creacion_envio_user_status_id.getD 0)).2
              else []
            let noteEffs :=
              if c.credsOk then
                [Effect.postNote leadId ("Contacto guardado en Google - Usuario: " ++ un)]
              else []
            (⟨200, true, "Contact saved to Google successfully"⟩,
             googleEffs ++ moveEffs ++ noteEffs)

/-! ## Event sequences

To reason about a sequence of webhook deliveries against the per-client
handler, an `InvalidEvent` describes one delivery that the handler counts
as a failed attempt — a message with no attachment, or one with an image
attachment the classifier rejects — and `runInvalidEvents` plays a list of
them (all remote calls succeed, the issued writes are applied to the
lead). -/

/-- A standard-shape incoming message event with no attachments. -/
def noAttachmentEvent (leadId : Nat) : Payload :=
  Payload.standard (some leadId) (some "in") [] none

/-- One invalid-or-missing-attachment message event: either a
standard-shape message with no attachments, or one carrying an image
attachment with URL `url` delivered while the classifier key is `key` and
the classifier oracle is `g`. -/
inductive InvalidEvent where
  | missing
  | rejected (url fileName : String) (key : Option String) (g : GeminiEnv)
deriving Repr

/-- The event really is invalid for the handler: a `rejected` event needs a
truthy URL and a classifier verdict of "not a proof". -/
def InvalidEvent.isInvalid : InvalidEvent → Bool
  | InvalidEvent.missing => true
  | InvalidEvent.rejected url _ key g =>
    url != "" && !(validatePaymentProofGemini key g).1.isPaymentProof

/-- The webhook payload delivering the event. -/
def invalidEventPayload (leadId : Nat) : InvalidEvent → Payload
  | InvalidEvent.missing => noAttachmentEvent leadId
  | InvalidEvent.rejected url fileName _ _ =>
    Payload.standard (some leadId) (some "in")
      [⟨some "image", some fileName, none, some url, none⟩] none

/-- The world in which the event is processed: remote calls succeed, and
the classifier oracle is the one the event was issued under. -/
def invalidEventWorld (l : Lead) (gk : Option String) (g : GeminiEnv) :
    InvalidEvent → World
  | InvalidEvent.missing =>
    { lead := l, getLeadOk := true, patchOk := true, noteOk := true
      geminiApiKey := gk, gemini := g }
  | InvalidEvent.rejected _ _ key g2 =>
    { lead := l, getLeadOk := true, patchOk := true, noteOk := true
      geminiApiKey := key, gemini := g2 }

/-- One delivery of an invalid event; returns the lead record after the
issued writes land. -/
def stepInvalidEvent (c : KommoConfig) (gk : Option String) (g : GeminiEnv)
    (leadId : Nat) (ev : InvalidEvent) (l : Lead) : Lead :=
  applyEffects l
    (messageReceivedPOST c (invalidEventWorld l gk g ev)
      (invalidEventPayload leadId ev)).2

/-- Consecutive deliveries of a list of invalid events. -/
def runInvalidEvents (c : KommoConfig) (gk : Option String) (g : GeminiEnv)
    (leadId : Nat) : List InvalidEvent → Lead → Lead
  | [], l => l
  | ev :: evs, l =>
    runInvalidEvents c gk g leadId evs (stepInvalidEvent c gk g leadId ev l)

/-! ## Concrete fixtures (used by the closed witnesses and counterexamples) -/

/-- A fully configured test tenant: ESPERANDO COMPROBANTE = 10,
COMPROBANTE RECIBIDO = 20, COMPROBANTE NO RECIBIDO = 55, NO RESPONDIO = 66,
intentos field 5, max 3. -/
def cfgA : KommoConfig :=
  { credsOk := true
    esperando_comprobante_status_id := some 10
    comprobante_recibido_status_id := some 20
    comprobante_no_recibido_status_id := some 55
    no_respondio_status_id := some 66
    intentos_comprobante_field_id := some 5
    max_intentos_comprobante := some 3
    fbclid_field_id := some 9
    username_field_id := some 4
    creacion_envio_user_status_id := some 77 }

def clientA : ClientConfig := { kommo := cfgA, googleConfigured := true }

/-- Single-entry pipeline table: pipeline 100 belongs to the test tenant. -/
def tableA : List (Nat × String × ClientConfig) := [(100, "zeus1", clientA)]

/-- A Gemini oracle (never consulted when the key is absent). -/
def gemSkip : GeminiEnv := ⟨true, ApiOutcome.httpError⟩

/-- A Gemini oracle that downloads the image and answers "not a proof". -/
def gemReject : GeminiEnv :=
  ⟨true, ApiOutcome.parsed ⟨false, "high", "not a proof", none⟩⟩

/-- A vision oracle whose PDF extraction fails. -/
def envPdfFail : VisionEnv :=
  ⟨none, true, fun _ => ApiOutcome.httpError, fun _ => ApiOutcome.httpError⟩

/-- World around a lead sitting in an unrelated stage (999). -/
def worldOffStage : World :=
  { lead := ⟨999, 1, some 0⟩, getLeadOk := true, patchOk := true, noteOk := true
    geminiApiKey := none, gemini := gemSkip }

/-- World around a lead waiting for its proof (stage 10, counter 0). -/
def worldWaiting : World :=
  { lead := ⟨10, 1, some 0⟩, getLeadOk := true, patchOk := true, noteOk := true
    geminiApiKey := none, gemini := gemSkip }

/-- World around a lead in the retry stage (55, counter 2) whose classifier
is configured and answers "is a proof". -/
def worldProof : World :=
  { lead := ⟨55, 1, some 2⟩, getLeadOk := true, patchOk := true, noteOk := true
    geminiApiKey := some "g"
    gemini := ⟨true, ApiOutcome.parsed ⟨true, "high", "ok", none⟩⟩ }

/-- Zeus-handler world around a lead of pipeline 100 in stage `sid` with
counter `iv`. -/
def zWorldAt (sid : Nat) (iv : Option Nat) : ZWorld :=
  { lastMessage := none, pipelineFetchOk := true, pipeline_id := 100
    lead := ⟨sid, 100, iv⟩, getLeadOk := true, patchOk := true
    openaiApiKey := none, vision := envPdfFail }

/-- Create-player world whose lead sits in the unconfigured pipeline 777. -/
def zcWorldNoMatch : ZCWorld :=
  ⟨true, 777, some "user9", some 3, true, some "+54", none, true, true, true⟩

/-! ## Helper lemmas -/

@[simp] theorem natTruthy_some (n : Nat) : natTruthy (some n) = (n != 0) := rfl

@[simp] theorem natTruthy_none : natTruthy (none : Option Nat) = false := rfl

@[simp] theorem strTruthy_some (s : String) : strTruthy (some s) = (s != "") := rfl

@[simp] theorem strTruthy_none : strTruthy (none : Option String) = false := rfl

theorem strTruthy_some_of_ne (s : String) (h : s ≠ "") : strTruthy (some s) = true := by
  simp [h]

/-- `saveFbclidToLead` never writes the stage or the retry counter. -/
theorem saveFbclidToLead_no_stage_write (c : KommoConfig) (w : ZWorld)
    (leadId : Nat) (fb : String) :
    ∀ e ∈ (saveFbclidToLead c w leadId fb).2, stageOrRetryWrite e = false := by
  intro e he
  unfold saveFbclidToLead at he
  by_cases h : (!c.credsOk || !natTruthy c.fbclid_field_id) = true
  · simp [h] at he
  · simp [h] at he
    subst he
    rfl

/-- The tracking-id capture never writes the stage or the retry counter. -/
theorem fbclidEffects_no_stage_write (c : KommoConfig) (w : ZWorld) (leadId : Nat)
    (messageText : Option String) :
    ∀ e ∈ fbclidEffects c w leadId messageText, stageOrRetryWrite e = false := by
  intro e he
  match messageText with
  | none => simp [fbclidEffects] at he
  | some t =>
    match h : extractFbclidFromMessage t with
    | none => simp [fbclidEffects, h] at he
    | some fb =>
      simp only [fbclidEffects, h] at he
      exact saveFbclidToLead_no_stage_write c w leadId fb e he

/-! ## C4 — classification gateway fails open without a credential -/

/-- C4: with no classifier API key configured, both generations of
`validatePaymentProof` return `isPaymentProof = true` with confidence
`"low"` (the fail-open result) and make zero calls to the classification
provider, for every attachment URL, file name and provider oracle. -/
theorem c4_missing_key_fails_open (imageUrl fileName : String) (env : VisionEnv)
    (genv : GeminiEnv) :
    validatePaymentProof none imageUrl fileName env =
      (⟨true, "low", "Validation skipped - no API key configured", none⟩, 0) ∧
    validatePaymentProofGemini none genv =
      (⟨true, "low", "Validation skipped - no API key configured", none⟩, 0) :=
  ⟨rfl, rfl⟩

/-! ## C5 — unreadable PDF content fails closed -/

/-- C5: with a classifier key configured, a PDF attachment whose content
extraction fails (download/parse failure, or extracted text shorter than 10
characters after trimming) yields `isPaymentProof = false` with confidence
`"low"` and no provider call — the opposite verdict of the fail-open
missing-credential case. -/
theorem c5_unreadable_pdf_fails_closed (apiKey imageUrl fileName : String)
    (env : VisionEnv)
    (hkey : apiKey ≠ "")
    (hpdf : isPdfFile fileName none = true)
    (hfail : env.pdfText = none ∨ ∃ t, env.pdfText = some t ∧ t.trim.length < 10) :
    validatePaymentProof (some apiKey) imageUrl fileName env =
      (⟨false, "low", "No se pudo extraer texto del PDF", none⟩, 0) ∧
    (validatePaymentProof (some apiKey) imageUrl fileName env).1.isPaymentProof ≠
      (validatePaymentProof none imageUrl fileName env).1.isPaymentProof := by
  have h1 : validatePaymentProof (some apiKey) imageUrl fileName env =
      (⟨false, "low", "No se pudo extraer texto del PDF", none⟩, 0) := by
    rcases hfail with h | ⟨t, ht, hlen⟩
    · simp [validatePaymentProof, hkey, hpdf, h]
    · simp [validatePaymentProof, hkey, hpdf, ht, hlen]
  refine ⟨h1, ?_⟩
  rw [h1]
  simp [validatePaymentProof, failOpen]

/-- Closed witness for C5: a PDF whose download fails, under key `"k"`. -/
theorem c5_unreadable_pdf_fails_closed_witness :
    validatePaymentProof (some "k") "http://u" "comprobante.pdf" envPdfFail =
      (⟨false, "low", "No se pudo extraer texto del PDF", none⟩, 0) ∧
    (validatePaymentProof (some "k") "http://u" "comprobante.pdf" envPdfFail).1.isPaymentProof ≠
      (validatePaymentProof none "http://u" "comprobante.pdf" envPdfFail).1.isPaymentProof :=
  c5_unreadable_pdf_fails_closed "k" "http://u" "comprobante.pdf" envPdfFail
    (by decide) (by decide) (Or.inl rfl)

/-! ## C2 — escalation after maxRetries invalid events -/

/-- One invalid-event delivery on a fully configured tenant: whether the
message has no attachment or an image the classifier rejects, the counter
becomes `k + 1` and the lead moves to `COMPROBANTE NO RECIBIDO`, or to
`NO RESPONDIO` once `k + 1` reaches the maximum. -/
theorem stepInvalidEvent_spec (c : KommoConfig) (gk : Option String) (g : GeminiEnv)
    (leadId : Nat) (ev : InvalidEvent) (l : Lead) (k m nrid cnrid fid : Nat)
    (hev : ev.isInvalid = true)
    (hcreds : c.credsOk = true)
    (hfid : c.intentos_comprobante_field_id = some fid) (hfid0 : fid ≠ 0)
    (hnr : c.no_respondio_status_id = some nrid) (hnr0 : nrid ≠ 0)
    (hcnr : c.comprobante_no_recibido_status_id = some cnrid) (hcnr0 : cnrid ≠ 0)
    (hmax : c.max_intentos_comprobante = some m) (hm0 : m ≠ 0)
    (hlid : leadId ≠ 0)
    (hk : l.intentosField = some k) :
    stepInvalidEvent c gk g leadId ev l =
      { status_id := if m ≤ k + 1 then nrid else cnrid
        pipeline_id := l.pipeline_id
        intentosField := some (k + 1) } := by
  cases ev with
  | missing =>
    by_cases hge : m ≤ k + 1 <;>
      simp [stepInvalidEvent, invalidEventWorld, invalidEventPayload,
        messageReceivedPOST, extractMessage, noAttachmentEvent, handleNoProof,
        getLeadData, updateLeadStatus, jsOrNatD, applyEffects, applyEffect,
        hcreds, hfid, hnr, hcnr, hmax, hk, hlid, hfid0, hnr0, hcnr0, hm0, hge]
  | rejected url fn key g2 =>
    simp only [InvalidEvent.isInvalid, Bool.and_eq_true, bne_iff_ne, ne_eq,
      Bool.not_eq_true'] at hev
    obtain ⟨hurl, hrej⟩ := hev
    by_cases hge : m ≤ k + 1 <;>
      simp [stepInvalidEvent, invalidEventWorld, invalidEventPayload,
        messageReceivedPOST, extractMessage, handleNoProof, getLeadData,
        updateLeadStatus, jsOrStr, jsOrNatD, applyEffects, applyEffect,
        hcreds, hfid, hnr, hcnr, hmax, hk, hlid, hfid0, hnr0, hcnr0, hm0, hge,
        hurl, hrej]

/-- Auxiliary induction: with `evs` invalid deliveries remaining (at least
one) and the counter at `k = m - evs.length`, the run ends on `NO RESPONDIO`
with the counter left at `m`. -/
theorem runInvalidEvents_aux (c : KommoConfig) (gk : Option String) (g : GeminiEnv)
    (leadId m nrid cnrid fid : Nat)
    (hcreds : c.credsOk = true)
    (hfid : c.intentos_comprobante_field_id = some fid) (hfid0 : fid ≠ 0)
    (hnr : c.no_respondio_status_id = some nrid) (hnr0 : nrid ≠ 0)
    (hcnr : c.comprobante_no_recibido_status_id = some cnrid) (hcnr0 : cnrid ≠ 0)
    (hmax : c.max_intentos_comprobante = some m) (hm0 : m ≠ 0)
    (hlid : leadId ≠ 0) :
    ∀ evs k l, 1 ≤ evs.length → k + evs.length = m →
      (∀ ev ∈ evs, ev.isInvalid = true) → l.intentosField = some k →
      runInvalidEvents c gk g leadId evs l =
        { status_id := nrid, pipeline_id := l.pipeline_id, intentosField := some m } := by
  intro evs
  induction evs with
  | nil => intro k l h1; exact absurd h1 (by simp)
  | cons ev evs ih =>
    intro k l _h1 hkj hinv hk
    have hstep := stepInvalidEvent_spec c gk g leadId ev l k m nrid cnrid fid
      (hinv ev (List.mem_cons_self ev evs))
      hcreds hfid hfid0 hnr hnr0 hcnr hcnr0 hmax hm0 hlid hk
    simp only [List.length_cons] at hkj
    rcases Nat.eq_zero_or_pos evs.length with hlen0 | hlen1
    · have hevs : evs = [] := List.length_eq_zero.mp hlen0
      subst hevs
      simp only [List.length_nil] at hkj hlen0
      have hge : m ≤ k + 1 := by omega
      have hmeq : m = k + 1 := by omega
      rw [runInvalidEvents, runInvalidEvents, hstep]
      simp [hge, hmeq]
    · have hlt : ¬ m ≤ k + 1 := by omega
      rw [runInvalidEvents, hstep]
      simp only [if_neg hlt]
      exact ih (k + 1) _ hlen1 (by omega)
        (fun e he => hinv e (List.mem_cons_of_mem ev he)) rfl

/-- C2: a lead starting in ESPERANDO COMPROBANTE with counter 0, hit by any
sequence of `maxRetries` consecutive invalid-or-missing-attachment message
events — each either lacking an attachment or carrying an image the
classifier rejects, in any mix — on a fully configured tenant with all
writes succeeding, ends in the NO RESPONDIO escalation stage with the
persisted counter equal to `maxRetries`, not reset on escalation. -/
theorem c2_escalation_at_max_retries (c : KommoConfig) (gk : Option String)
    (g : GeminiEnv) (leadId m wid nrid cnrid fid : Nat) (l0 : Lead)
    (evs : List InvalidEvent)
    (hcreds : c.credsOk = true)
    (hwid : c.esperando_comprobante_status_id = some wid)
    (hstart : l0.status_id = wid)
    (hfid : c.intentos_comprobante_field_id = some fid) (hfid0 : fid ≠ 0)
    (hnr : c.no_respondio_status_id = some nrid) (hnr0 : nrid ≠ 0)
    (hcnr : c.comprobante_no_recibido_status_id = some cnrid) (hcnr0 : cnrid ≠ 0)
    (hmax : c.max_intentos_comprobante = some m) (hm : 1 ≤ m)
    (hlid : leadId ≠ 0)
    (h0 : l0.intentosField = some 0)
    (hlen : evs.length = m)
    (hinv : ∀ ev ∈ evs, ev.isInvalid = true) :
    runInvalidEvents c gk g leadId evs l0 =
      { status_id := nrid, pipeline_id := l0.pipeline_id, intentosField := some m } :=
  runInvalidEvents_aux c gk g leadId m nrid cnrid fid
    hcreds hfid hfid0 hnr hnr0 hcnr hcnr0 hmax (by omega) hlid
    evs 0 l0 (by omega) (by omega) hinv h0

/-- Closed witness for C2: lead 7 of the test tenant (max 3), hit by a
no-attachment event, then an image the classifier rejects, then another
no-attachment event: stage 66 (NO RESPONDIO), counter 3. -/
theorem c2_escalation_at_max_retries_witness :
    runInvalidEvents cfgA none gemSkip 7
      [InvalidEvent.missing,
       InvalidEvent.rejected "http://img" "selfie.jpg" (some "g") gemReject,
       InvalidEvent.missing]
      ⟨10, 1, some 0⟩ =
      { status_id := 66, pipeline_id := 1, intentosField := some 3 } :=
  c2_escalation_at_max_retries cfgA none gemSkip 7 3 10 66 55 5 ⟨10, 1, some 0⟩
    [InvalidEvent.missing,
     InvalidEvent.rejected "http://img" "selfie.jpg" (some "g") gemReject,
     InvalidEvent.missing]
    rfl rfl rfl rfl (by decide) rfl (by decide) rfl (by decide) rfl (by decide)
    (by decide) rfl rfl (by decide)

/-! ## C1 — stage gate -/

/-- C1 counterexample: the per-client handler (the `handleNoProof`
generation cited by the claim) never consults the lead's current stage.  A
lead of the test tenant sitting in stage 999 — neither ESPERANDO
COMPROBANTE (10) nor COMPROBANTE NO RECIBIDO (55) — still receives a state
write from an incoming no-attachment message event: its stage is changed to
55 and its retry counter to 1, so the event is not ignored. -/
theorem c1_stage_gate_missing_cex :
    worldOffStage.lead.status_id ≠ cfgA.esperando_comprobante_status_id.getD 0 ∧
    worldOffStage.lead.status_id ≠ cfgA.comprobante_no_recibido_status_id.getD 0 ∧
    (messageReceivedPOST cfgA worldOffStage (noAttachmentEvent 7)).2 =
      [Effect.patchLead 7 55 (some 1)] :=
  ⟨by decide, by decide, by decide⟩

/-- C1 (amended): only the zeus multi-pipeline message handler has the
stage gate.  There, an incoming message event on a lead whose fetched stage
is in neither `esperando_comprobante` nor `comprobante_no_recibido` is
acknowledged with success ("Lead not in waiting status") and no stage or
retry-counter write is issued; apart from the tracking-id capture the event
is ignored.  The per-client handler of `part_000` lacks the gate (see the
counterexample). -/
theorem c1_zeus_stage_gate_noop (table : List (Nat × String × ClientConfig))
    (base : KommoConfig) (w : ZWorld) (p : ZPayload) (cc : String × ClientConfig)
    (li : Nat × Nat)
    (hin : (zExtract base w p).isIncoming = true)
    (hlid : natTruthy (zExtract base w p).leadId = true)
    (hfetch : w.pipelineFetchOk = true)
    (hres : findClientByPipelineId table w.pipeline_id = some cc)
    (hld : getLeadData cc.2.kommo w.lead w.getLeadOk = some li)
    (hgate : (validStatuses cc.2.kommo).contains li.2 = false) :
    (zeusMessagePOST table base w p).1 = ⟨200, true, "Lead not in waiting status"⟩ ∧
    ∀ e ∈ (zeusMessagePOST table base w p).2, stageOrRetryWrite e = false := by
  have key : zeusMessagePOST table base w p =
      (⟨200, true, "Lead not in waiting status"⟩,
       fbclidEffects cc.2.kommo w ((zExtract base w p).leadId.getD 0)
         (zExtract base w p).messageText) := by
    have hgatem : li.2 ∉ validStatuses cc.2.kommo := by simpa using hgate
    simp [zeusMessagePOST, hin, hlid, hfetch, hres, hld, hgatem]
  rw [key]
  exact ⟨rfl, fbclidEffects_no_stage_write _ _ _ _⟩

/-- Closed witness for C1 (amended): lead 7 of pipeline 100 in stage 999
with a `[REF:ab]` message: success response, and no stage or counter
write. -/
theorem c1_zeus_stage_gate_noop_witness :
    (zeusMessagePOST tableA cfgA (zWorldAt 999 (some 2))
        (ZPayload.standard (some 7) (some "in") [] (some "hola [REF:ab] x"))).1 =
      ⟨200, true, "Lead not in waiting status"⟩ ∧
    ∀ e ∈ (zeusMessagePOST tableA cfgA (zWorldAt 999 (some 2))
        (ZPayload.standard (some 7) (some "in") [] (some "hola [REF:ab] x"))).2,
      stageOrRetryWrite e = false :=
  c1_zeus_stage_gate_noop tableA cfgA (zWorldAt 999 (some 2))
    (ZPayload.standard (some 7) (some "in") [] (some "hola [REF:ab] x"))
    ("zeus1", clientA) (2, 999) (by decide) (by decide) rfl rfl rfl (by decide)

/-! ## C3 — a valid proof resets the counter and appends the audit note -/

/-- C3: an incoming message with an image attachment that the classifier
accepts moves the lead to COMPROBANTE RECIBIDO in a single `PATCH` that
writes the retry counter to 0 — regardless of the prior counter value (the
world, hence the stored counter, is universally quantified) — and, the
status write having succeeded, appends the audit note built from the file
name and URL. -/
theorem c3_valid_proof_resets_counter (c : KommoConfig) (w : World) (p : Payload)
    (lid rid : Nat) (url : String)
    (hin : (extractMessage p).isIncoming = true)
    (hlid : (extractMessage p).leadId = some lid) (hlid0 : lid ≠ 0)
    (hatt : (extractMessage p).attachmentType = some "image")
    (hurl : (extractMessage p).fileUrl = some url) (hurl0 : url ≠ "")
    (hclass : (validatePaymentProofGemini w.geminiApiKey w.gemini).1.isPaymentProof = true)
    (hrid : c.comprobante_recibido_status_id = some rid) (hrid0 : rid ≠ 0)
    (hcreds : c.credsOk = true)
    (hfld : natTruthy c.intentos_comprobante_field_id = true)
    (hpatch : w.patchOk = true) :
    messageReceivedPOST c w p =
      (⟨200, true, "Proof received - moved to COMPROBANTE RECIBIDO"⟩,
       [Effect.classify url,
        Effect.patchLead lid rid (some 0),
        Effect.postNote lid (noteText (extractMessage p).fileName (some url))]) := by
  simp [messageReceivedPOST, validProofTail, updateLeadStatus, addNoteToLead,
    hin, hlid, hlid0, hatt, hurl, hurl0, hclass, hrid, hrid0, hcreds, hfld, hpatch]

/-- Closed witness for C3: a picture message on a lead with counter 2, the
classifier accepting; one `PATCH` to stage 20 with counter 0, then the
note. -/
theorem c3_valid_proof_resets_counter_witness :
    messageReceivedPOST cfgA worldProof
      (Payload.chats (some 5) (some 7) none "picture" (some "recibo.jpg")
        (some "http://img") none) =
      (⟨200, true, "Proof received - moved to COMPROBANTE RECIBIDO"⟩,
       [Effect.classify "http://img",
        Effect.patchLead 7 20 (some 0),
        Effect.postNote 7 (noteText "recibo.jpg" (some "http://img"))]) :=
  c3_valid_proof_resets_counter cfgA worldProof
    (Payload.chats (some 5) (some 7) none "picture" (some "recibo.jpg")
      (some "http://img") none)
    7 20 "http://img" (by decide) (by decide) (by decide) (by decide) (by decide)
    (by decide) (by decide) rfl (by decide) rfl (by decide) rfl

/-! ## C6 — missing lead id -/

/-- C6 counterexample: an incoming Chats-API event carrying a sender id but
no conversation or talk id (so no lead id can be extracted) is answered
with HTTP 400 and `success: false` — an error response, not the affirmative
response the claim requires (though indeed nothing is processed). -/
theorem c6_missing_lead_id_error_cex :
    messageReceivedPOST cfgA worldWaiting
      (Payload.chats (some 5) none none "text" none none none) =
      (⟨400, false, "Could not extract lead/conversation ID"⟩, []) := by
  decide

/-- C6 (amended): when no lead id can be extracted from an incoming event,
the handler performs no processing — no remote request of any kind — but
responds with HTTP 400 `{success: false}` rather than affirmatively. -/
theorem c6_missing_lead_id_no_processing (c : KommoConfig) (w : World) (p : Payload)
    (hin : (extractMessage p).isIncoming = true)
    (hlid : natTruthy (extractMessage p).leadId = false) :
    messageReceivedPOST c w p =
      (⟨400, false, "Could not extract lead/conversation ID"⟩, []) := by
  simp [messageReceivedPOST, hin, hlid]

/-- Closed witness for C6 (amended). -/
theorem c6_missing_lead_id_no_processing_witness :
    messageReceivedPOST cfgA worldWaiting
      (Payload.chats (some 5) (some 0) none "text" none none none) =
      (⟨400, false, "Could not extract lead/conversation ID"⟩, []) :=
  c6_missing_lead_id_no_processing cfgA worldWaiting
    (Payload.chats (some 5) (some 0) none "text" none none none)
    (by decide) (by decide)

/-! ## C7 — unrecognized attachment kinds -/

/-- C7 counterexample: an incoming message with an attachment of coarse type
`"video"` (with a URL) is answered "Attachment type not valid for proof"
with no remote request at all — in particular no retry-counter increment —
whereas a no-attachment event on the same lead state increments the counter
and moves the stage.  The two cases are not treated identically. -/
theorem c7_unknown_type_ignored_cex :
    messageReceivedPOST cfgA worldWaiting
      (Payload.standard (some 7) (some "in")
        [⟨some "video", none, none, some "http://x", none⟩] none) =
      (⟨200, true, "Attachment type not valid for proof"⟩, []) ∧
    (messageReceivedPOST cfgA worldWaiting (noAttachmentEvent 7)).2 =
      [Effect.patchLead 7 55 (some 1)] :=
  ⟨by decide, by decide⟩

/-- C7 (amended): an attachment whose coarse type is truthy but neither
`"image"` nor `"file"` short-circuits the handler with a success response
and no state write whatsoever: it is ignored entirely, not counted as a
failed attempt the way a missing attachment is. -/
theorem c7_unknown_type_noop (c : KommoConfig) (w : World) (p : Payload)
    (hin : (extractMessage p).isIncoming = true)
    (hlid : natTruthy (extractMessage p).leadId = true)
    (hatt : strTruthy (extractMessage p).attachmentType = true)
    (hurl : strTruthy (extractMessage p).fileUrl = true)
    (hne : ((extractMessage p).attachmentType == some "image" ||
            (extractMessage p).attachmentType == some "file") = false) :
    messageReceivedPOST c w p =
      (⟨200, true, "Attachment type not valid for proof"⟩, []) := by
  simp [messageReceivedPOST, hin, hlid, hatt, hurl, hne]

/-- Closed witness for C7 (amended). -/
theorem c7_unknown_type_noop_witness :
    messageReceivedPOST cfgA worldWaiting
      (Payload.standard (some 7) (some "in")
        [⟨some "video", none, none, some "http://x", none⟩] none) =
      (⟨200, true, "Attachment type not valid for proof"⟩, []) :=
  c7_unknown_type_noop cfgA worldWaiting
    (Payload.standard (some 7) (some "in")
      [⟨some "video", none, none, some "http://x", none⟩] none)
    (by decide) (by decide) (by decide) (by decide) (by decide)

/-! ## C8 — unmatched pipeline in the zeus create-player route -/

/-- C8 counterexample: a create-player webhook for a lead whose fetched
pipeline (777) matches no configured tenant is answered with HTTP 400 and
`success: false` — an error response the CRM will retry — not the
acknowledged success the claim requires (no lead state is changed,
though). -/
theorem c8_unmatched_pipeline_error_cex :
    zeusCreatePlayerPOST [] zcWorldNoMatch [("leads[add][0][id]", "42")] =
      (⟨400, false, "Pipeline 777 not configured"⟩, []) := by
  decide

/-- C8 (amended): in `POST /api/zeus/create-player-from-kommo`, when the
lead's fetched pipeline id matches no tenant-config entry the event is
dropped with no lead-state change, but the response is HTTP 400
`{success: false}` — an error the sender may retry, unlike the zeus
message-received handler which acknowledges the same situation with
success. -/
theorem c8_unmatched_pipeline_dropped (table : List (Nat × String × ClientConfig))
    (w : ZCWorld) (payload : List (String × String))
    (hlid : natTruthy (zcFindLeadId payload) = true)
    (hfetch : w.fetchLeadOk = true)
    (hres : findClientByPipelineId table w.pipeline_id = none) :
    zeusCreatePlayerPOST table w payload =
      (⟨400, false, "Pipeline " ++ toString w.pipeline_id ++ " not configured"⟩, []) := by
  simp [zeusCreatePlayerPOST, hlid, hfetch, hres]

/-- Closed witness for C8 (amended). -/
theorem c8_unmatched_pipeline_dropped_witness :
    zeusCreatePlayerPOST [] zcWorldNoMatch [("leads[add][0][id]", "42")] =
      (⟨400, false, "Pipeline " ++ toString zcWorldNoMatch.pipeline_id ++ " not configured"⟩, []) :=
  c8_unmatched_pipeline_dropped [] zcWorldNoMatch [("leads[add][0][id]", "42")]
    (by decide) rfl rfl

/-! ## C9 — "file" attachments skip classification -/

/-- C9: an incoming message whose attachment's coarse type is `"file"`
(which the media mapping assigns to PDF, video, voice and audio alike)
never invokes the classification gateway — no `classify` effect is issued —
and is accepted as a valid proof: the lead is moved to COMPROBANTE RECIBIDO
with the counter reset to 0. -/
theorem c9_file_skips_classifier (c : KommoConfig) (w : World) (p : Payload)
    (lid rid : Nat)
    (hin : (extractMessage p).isIncoming = true)
    (hlid : (extractMessage p).leadId = some lid) (hlid0 : lid ≠ 0)
    (hatt : (extractMessage p).attachmentType = some "file")
    (hurl : strTruthy (extractMessage p).fileUrl = true)
    (hrid : c.comprobante_recibido_status_id = some rid) (hrid0 : rid ≠ 0)
    (hcreds : c.credsOk = true)
    (hfld : natTruthy c.intentos_comprobante_field_id = true) :
    (messageReceivedPOST c w p).1 =
      ⟨200, true, "Proof received - moved to COMPROBANTE RECIBIDO"⟩ ∧
    (∀ u, Effect.classify u ∉ (messageReceivedPOST c w p).2) ∧
    Effect.patchLead lid rid (some 0) ∈ (messageReceivedPOST c w p).2 := by
  have key : messageReceivedPOST c w p =
      (⟨200, true, "Proof received - moved to COMPROBANTE RECIBIDO"⟩,
       Effect.patchLead lid rid (some 0) ::
         (if w.patchOk then
            [Effect.postNote lid
              (noteText (extractMessage p).fileName (extractMessage p).fileUrl)]
          else [])) := by
    cases hpo : w.patchOk <;>
      simp [messageReceivedPOST, validProofTail, updateLeadStatus, addNoteToLead,
        hin, hlid, hlid0, hatt, hurl, hrid, hrid0, hcreds, hfld, hpo]
  rw [key]
  refine ⟨rfl, ?_, List.mem_cons_self _ _⟩
  intro u hu
  cases hpo : w.patchOk <;> simp [hpo] at hu

/-- Closed witness for C9: a PDF sent as a `"file"` attachment is accepted
without any classifier call. -/
theorem c9_file_skips_classifier_witness :
    (messageReceivedPOST cfgA worldWaiting
      (Payload.standard (some 7) (some "in")
        [⟨some "file", some "doc.pdf", none, some "http://f", none⟩] none)).1 =
      ⟨200, true, "Proof received - moved to COMPROBANTE RECIBIDO"⟩ ∧
    (∀ u, Effect.classify u ∉ (messageReceivedPOST cfgA worldWaiting
      (Payload.standard (some 7) (some "in")
        [⟨some "file", some "doc.pdf", none, some "http://f", none⟩] none)).2) ∧
    Effect.patchLead 7 20 (some 0) ∈ (messageReceivedPOST cfgA worldWaiting
      (Payload.standard (some 7) (some "in")
        [⟨some "file", some "doc.pdf", none, some "http://f", none⟩] none)).2 :=
  c9_file_skips_classifier cfgA worldWaiting
    (Payload.standard (some 7) (some "in")
      [⟨some "file", some "doc.pdf", none, some "http://f", none⟩] none)
    7 20 (by decide) (by decide) (by decide) (by decide) (by decide) rfl
    (by decide) rfl (by decide)

/-! ## C10 — non-incoming events -/

/-- C10: an event that is not incoming — a Chats-API message without a
(truthy) sender id, or a standard-format message whose `message_type` is
not `'in'` — is acknowledged with success ("Outgoing message ignored") and
causes no remote request at all: no stage change, no counter change, no
note, no classification call. -/
theorem c10_not_incoming_noop :
    (∀ (c : KommoConfig) (w : World) (sid cid tid : Option Nat) (mt : String)
        (fn md tx : Option String), natTruthy sid = false →
        messageReceivedPOST c w (Payload.chats sid cid tid mt fn md tx) =
          (⟨200, true, "Outgoing message ignored"⟩, [])) ∧
    (∀ (c : KommoConfig) (w : World) (eid : Option Nat) (mt : Option String)
        (atts : List StdAttachment) (tx : Option String), mt ≠ some "in" →
        messageReceivedPOST c w (Payload.standard eid mt atts tx) =
          (⟨200, true, "Outgoing message ignored"⟩, [])) := by
  constructor
  · intro c w sid cid tid mt fn md tx hsid
    simp [messageReceivedPOST, extractMessage, hsid]
  · intro c w eid mt atts tx hmt
    cases atts <;> simp [messageReceivedPOST, extractMessage, hmt]

/-- Closed witness for C10: one outgoing event of each shape. -/
theorem c10_not_incoming_noop_witness :
    messageReceivedPOST cfgA worldWaiting
      (Payload.chats none (some 7) none "picture" none (some "http://m") none) =
      (⟨200, true, "Outgoing message ignored"⟩, []) ∧
    messageReceivedPOST cfgA worldWaiting
      (Payload.standard (some 7) (some "out") [] none) =
      (⟨200, true, "Outgoing message ignored"⟩, []) :=
  ⟨c10_not_incoming_noop.1 cfgA worldWaiting none (some 7) none "picture" none
      (some "http://m") none (by decide),
   c10_not_incoming_noop.2 cfgA worldWaiting (some 7) (some "out") [] none
      (by decide)⟩

end ApiCasinos
